import Mathlib

/-!
# Verification of the `bsa` binding engine

Shallow embedding of the `bsa` Go library (package `bsa`): the `Bind`
orchestrator, the query resolver (`resolveQuery`), the runner's
return-shape classification, and the synthesized call-time closures.

External collaborators (the `database/sql` driver and the
`scany/sqlscan` scanner) are modelled at their interface boundary:
a `DbEnv` says what `ExecContext`/`QueryContext` return for a given
executor, query and parameter list, and the three scanner operations
(`ScanOne`, `ScanRow`, `ScanAll`) are modelled as functions of the
row list the driver produced, with an unambiguous no-rows signal.

Reflection is embedded by defunctionalization: `reflect.MakeFunc`
installs a closure fully determined by the function type, the chosen
return-shape convention and the resolved query text, so a bound field
stores that data (`BoundSpec`) and `callBound` interprets it exactly
as the Go wrappers do, including `MakeFunc`'s result-assignability
check (which panics on a type mismatch at call time).
-/

namespace BSA

/-- Abstract value of a row-mapped Go struct (what the scanner
materializes). `zero` models Go's zero-valued struct / what
`reflect.New` leaves before any scan writes to it. -/
structure StructVal where
  cols : List String
deriving DecidableEq

def StructVal.zero : StructVal := ⟨[]⟩

/-- Errors produced by the driver or the scanner. `noRows` models
an error for which `errors.Is(err, sql.ErrNoRows)` holds; `canceled`
models the error a driver returns when the threaded context is
canceled. -/
inductive DbErr
| noRows
| canceled
| msg (s : String)
deriving DecidableEq

/-- `errors.Is(err, sql.ErrNoRows)`. -/
def DbErr.isNoRows : DbErr → Bool
| .noRows => true
| _ => false

/-- The Go types relevant to the binding engine's return shapes. -/
inductive GoTy
| structT
| ptrT (t : GoTy)
| sliceT (t : GoTy)
| int64T
| errorT
| otherT (s : String)
deriving DecidableEq

/-- Runtime values (`reflect.Value`s) flowing through a synthesized
call: arguments and results. `dbres id` is a value whose dynamic type
satisfies the `DBResource` interface (e.g. an `*sql.Tx`), identified
by `id`. -/
inductive RVal
| i64 (n : Int)
| strV (s : String)
| dbres (id : Nat)
| ptrStruct (v : Option StructVal)
| structV (v : StructVal)
| sliceStruct (v : Option (List StructVal))
| errV (e : Option DbErr)
deriving DecidableEq

/-- The dynamic Go type of a runtime value. -/
def RVal.ty : RVal → GoTy
| .i64 _ => .int64T
| .strV _ => .otherT "string"
| .dbres _ => .otherT "DBResource"
| .ptrStruct _ => .ptrT .structT
| .structV _ => .structT
| .sliceStruct _ => .sliceT .structT
| .errV _ => .errorT

/-- `reflect.Zero(t)`: the zero value of a Go type. The zero value of
a pointer is a nil reference and the zero value of a slice is a nil
slice. -/
def GoTy.zeroVal : GoTy → RVal
| .int64T => .i64 0
| .errorT => .errV none
| .ptrT _ => .ptrStruct none
| .structT => .structV .zero
| .sliceT _ => .sliceStruct none
| .otherT _ => .strV ""

/-- The runtime type assertion `v.Interface().(DBResource)`. -/
def RVal.isDBResource : RVal → Option Nat
| .dbres id => some id
| _ => none

/-- `getErrorValue` from the source: a nil error becomes the zero
value of the `error` type, a non-nil one is passed through. -/
def getErrorValue (e : Option DbErr) : RVal := .errV e

/-- Result of the argument-routing prologue shared by the `exec` and
`Query` helpers: the chosen executor (`none` = the default handle
given to `Bind`, `some id` = the `DBResource` passed as first
argument) and the values forwarded as query parameters. -/
structure Routed where
  executor : Option Nat
  params : List RVal
deriving DecidableEq

/-- The argument-routing prologue of both helpers: if there is at
least one argument and the first satisfies `DBResource`, it becomes
the executor and the remaining arguments are the parameters;
otherwise the default handle is used and all arguments are
parameters. -/
def routeArgs : List RVal → Routed
| [] => ⟨none, []⟩
| a :: rest =>
  match a.isDBResource with
  | some id => ⟨some id, rest⟩
  | none => ⟨none, a :: rest⟩

/-- `sql.Result`: `LastInsertId()` and `RowsAffected()`, each of which
may fail. -/
structure ExecResult where
  lastInsertId : Except DbErr Int
  rowsAffected : Except DbErr Int

/-- The database driver at its interface boundary: what
`ExecContext` and `QueryContext` return for a given executor, query
text and parameter list. A canceled context is modelled by these
operations returning `.error .canceled`. -/
structure DbEnv where
  execCtx : Option Nat → String → List RVal → Except DbErr ExecResult
  queryCtx : Option Nat → String → List RVal → Except DbErr (List StructVal)

/-- The tail of the source's `exec` helper after `ExecContext`
returned: `id` stays `0` unless `lastInsertIDSupport` is set, in
which case `LastInsertId()` is consulted (and its failure returned);
`RowsAffected()` is always consulted. -/
def execFinish (lastInsertIDSupport : Bool)
    (outcome : Except DbErr ExecResult) : Except DbErr (Int × Int) :=
  match outcome with
  | .error err => .error err
  | .ok result =>
    match (if lastInsertIDSupport then result.lastInsertId else .ok 0) with
    | .error err => .error err
    | .ok id =>
      match result.rowsAffected with
      | .error err => .error err
      | .ok affected => .ok (id, affected)

/-- `exec` with the executor and parameters already routed. -/
def execDispatch (env : DbEnv) (lastInsertIDSupport : Bool) (query : String)
    (executor : Option Nat) (params : List RVal) : Except DbErr (Int × Int) :=
  execFinish lastInsertIDSupport (env.execCtx executor query params)

/-- The source's `exec` helper: route the arguments, run
`ExecContext` on the chosen executor, then obtain id/affected. -/
def execHelper (env : DbEnv) (lastInsertIDSupport : Bool) (query : String)
    (args : List RVal) : Except DbErr (Int × Int) :=
  execDispatch env lastInsertIDSupport query
    (routeArgs args).executor (routeArgs args).params

/-- `sqlscan.ScanOne` at its interface boundary: given the pointee's
current value and the rows, returns the written value and the error.
Zero rows signal no-rows; more than one row is an error (the first
row having been written). -/
def scanOne (dst : StructVal) : List StructVal → StructVal × Option DbErr
| [] => (dst, some .noRows)
| [v] => (v, none)
| v :: _ :: _ => (v, some (.msg "scany: expected 1 row, got more"))

/-- `sqlscan.ScanRow` at its interface boundary: scans one row into
the destination; zero rows signal no-rows. -/
def scanRow (dst : StructVal) : List StructVal → StructVal × Option DbErr
| [] => (dst, some .noRows)
| v :: _ => (v, none)

/-- `sqlscan.ScanAll` at its interface boundary: truncates the
destination slice and appends every row; zero rows yield an empty,
non-nil slice. -/
def scanAll (dst : Option (List StructVal)) (rows : List StructVal) :
    Option (List StructVal) × Option DbErr :=
  match dst with
  | _ => (some rows, none)

/-- The tail of the source's `Query` helper after `QueryContext`
returned rows, producing the `(any, error)` pair the wrappers see.
For `one` with a pointer-typed result, `ScanOne` scans into a fresh
element and a no-rows error is replaced by `(reflect.Zero(oType),
nil)`; for `one` with a non-pointer result the source scans with
`ScanRow` into `reflect.New(oType)` and returns
`dstRefValue.Interface()` — the POINTER, not its element — clearing
only a no-rows error; otherwise `reflect.MakeSlice(oType, 0, 0)` is
scanned with `ScanAll`. -/
def scanFinish (one : Bool) (oType : GoTy) (rows : List StructVal) :
    RVal × Option DbErr :=
  if one then
    match oType with
    | .ptrT _ =>
      match scanOne StructVal.zero rows with
      | (w, some e) =>
        if e.isNoRows then (oType.zeroVal, none) else (.ptrStruct (some w), some e)
      | (w, none) => (.ptrStruct (some w), none)
    | _ =>
      match scanRow StructVal.zero rows with
      | (w, some e) => (.ptrStruct (some w), if e.isNoRows then none else some e)
      | (w, none) => (.ptrStruct (some w), none)
  else
    match scanAll (some []) rows with
    | (s, e) => (.sliceStruct s, e)

/-- `Query` with the executor and parameters already routed. A
`QueryContext` failure returns `(nil, err)`, modelled as `.error`. -/
def queryDispatch (env : DbEnv) (query : String) (one : Bool) (oType : GoTy)
    (executor : Option Nat) (params : List RVal) :
    Except DbErr (RVal × Option DbErr) :=
  match env.queryCtx executor query params with
  | .error err => .error err
  | .ok rows => .ok (scanFinish one oType rows)

/-- The source's `Query` helper: route the arguments, run
`QueryContext` on the chosen executor, then scan. -/
def QueryHelper (env : DbEnv) (query : String) (one : Bool) (oType : GoTy)
    (args : List RVal) : Except DbErr (RVal × Option DbErr) :=
  queryDispatch env query one oType
    (routeArgs args).executor (routeArgs args).params

/-- The four `exec` return-shape conventions, by `typ.NumOut()`. -/
inductive ExecConv
| noOut
| errOnly
| idAff
| idAffErr
deriving DecidableEq

/-- The two query return-shape conventions, by `typ.NumOut()`. -/
inductive QueryConv
| valOnly
| valErr
deriving DecidableEq

/-- The return-shape convention the runner selected for a binding. -/
inductive Conv
| exec (c : ExecConv)
| query (single : Bool) (c : QueryConv)
deriving DecidableEq

/-- A bound function's declared type: its return types in order.
(Parameter types play no role in the source's classification.) -/
structure FnTy where
  outs : List GoTy
deriving DecidableEq

/-- `typ.Out(0)`. -/
def FnTy.out0 (t : FnTy) : GoTy := t.outs.headD (.otherT "invalid")

/-- The runner's `switch numOut`: the wrapper is chosen by the NUMBER
of declared return values alone; any other count falls through to
`panic("unsupported return type")` — at bind time, since the runner
executes while `Bind` is installing the field. -/
def classify (typ : FnTy) (isExec singleSelection : Bool) : Option Conv :=
  if isExec then
    match typ.outs with
    | [] => some (.exec .noOut)
    | [_] => some (.exec .errOnly)
    | [_, _] => some (.exec .idAff)
    | [_, _, _] => some (.exec .idAffErr)
    | _ => none
  else
    match typ.outs with
    | [_] => some (.query singleSelection .valOnly)
    | [_, _] => some (.query singleSelection .valErr)
    | _ => none

/-- A panic unwinding a synthesized call: either an explicit
`panic(err)` in a wrapper, or `reflect.MakeFunc` rejecting a result
value whose type is not assignable to the declared return type. -/
inductive GoPanic
| panicked (e : DbErr)
| typeMismatch (haveTy wantTy : GoTy)
| wrongResultCount
deriving DecidableEq

/-- `reflect.MakeFunc`'s conversion of the closure's results to the
declared return types: each value must be assignable (here: have) the
declared type, else the call panics. -/
def convertResults (outs : List GoTy) (results : List RVal) :
    Except GoPanic (List RVal) :=
  match outs, results with
  | [], [] => .ok []
  | t :: ts, v :: vs =>
    if v.ty = t then
      match convertResults ts vs with
      | .error p => .error p
      | .ok rest => .ok (v :: rest)
    else .error (.typeMismatch v.ty t)
  | _, _ => .error .wrongResultCount

/-- The data closed over by an installed binding: the field's
function type, the selected convention and the resolved query text. -/
structure BoundSpec where
  typ : FnTy
  conv : Conv
  query : String
deriving DecidableEq

/-- The wrapper the runner selected, producing the raw
`[]reflect.Value` results (or an explicit `panic(err)`), exactly per
the source's six cases. -/
def rawResults (env : DbEnv) (lastInsertIDSupport : Bool) (spec : BoundSpec)
    (args : List RVal) : Except GoPanic (List RVal) :=
  match spec.conv with
  | .exec .noOut =>
    match execHelper env lastInsertIDSupport spec.query args with
    | .error e => .error (.panicked e)
    | .ok _ => .ok []
  | .exec .errOnly =>
    match execHelper env lastInsertIDSupport spec.query args with
    | .error e => .ok [getErrorValue (some e)]
    | .ok _ => .ok [getErrorValue none]
  | .exec .idAff =>
    match execHelper env lastInsertIDSupport spec.query args with
    | .error e => .error (.panicked e)
    | .ok (id, affected) => .ok [.i64 id, .i64 affected]
  | .exec .idAffErr =>
    match execHelper env lastInsertIDSupport spec.query args with
    | .error e => .ok [.i64 0, .i64 0, getErrorValue (some e)]
    | .ok (id, affected) => .ok [.i64 id, .i64 affected, getErrorValue none]
  | .query single .valOnly =>
    match QueryHelper env spec.query single spec.typ.out0 args with
    | .error e => .error (.panicked e)
    | .ok (_, some e) => .error (.panicked e)
    | .ok (v, none) => .ok [v]
  | .query single .valErr =>
    match QueryHelper env spec.query single spec.typ.out0 args with
    | .error e => .ok [spec.typ.out0.zeroVal, getErrorValue (some e)]
    | .ok (v, err) => .ok [v, getErrorValue err]

/-- A call through an installed binding: run the selected wrapper,
then `reflect.MakeFunc`'s result conversion. -/
def callBound (env : DbEnv) (lastInsertIDSupport : Bool) (spec : BoundSpec)
    (args : List RVal) : Except GoPanic (List RVal) :=
  match rawResults env lastInsertIDSupport spec args with
  | .error p => .error p
  | .ok rs => convertResults spec.typ.outs rs

/-- Errors returned from `Bind`; `join` is `errors.Join`. -/
inductive BsaError
| msg (s : String)
| join (e1 e2 : BsaError)
deriving DecidableEq

/-- Kernel-reducible list prefix test (models `strings.HasPrefix` on
the underlying characters). -/
def listIsPre (p l : List Char) : Bool :=
  match p, l with
  | [], _ => true
  | _ :: _, [] => false
  | a :: p, b :: l => a == b && listIsPre p l

/-- Kernel-reducible substring occurrence test. -/
def listContainsSub (needle hay : List Char) : Bool :=
  match hay with
  | [] => needle.isEmpty
  | a :: t => listIsPre needle (a :: t) || listContainsSub needle t

/-- `strings.HasPrefix s p`. -/
def strStarts (s p : String) : Bool := listIsPre p.data s.data

/-- `strings.HasSuffix s p`. -/
def strEnds (s p : String) : Bool := listIsPre p.data.reverse s.data.reverse

/-- Drop the first `n` characters of a string (the second component
of `strings.CutPrefix`). -/
def strDropChars (s : String) (n : Nat) : String := ⟨s.data.drop n⟩

/-- Substring occurrence on strings. -/
def strContainsSub (hay needle : String) : Bool :=
  listContainsSub needle.data hay.data

/-- Whether an error value mentions the given text anywhere in its
tree of messages. -/
def BsaError.mentions (s : String) : BsaError → Bool
| .msg m => strContainsSub m s
| .join a b => a.mentions s || b.mentions s

/-- Append the fixed `.sql` extension when absent. -/
def withSqlExt (s : String) : String :=
  if strEnds s ".sql" then s else s ++ ".sql"

/-- The loader collaborator: `Get(name) -> (text, error)`. -/
def QueryLoader := String → Except BsaError String

/-- The source's `resolveQuery`: text carrying the `file:` prefix is
stripped, given the `.sql` extension when absent and fetched from the
loader — a loader failure is joined with a message naming the field
and the original text; other text is used verbatim. -/
def resolveQuery (qLoader : QueryLoader) (q fnName : String) :
    Except BsaError String :=
  if strStarts q "file:" then
    match qLoader (withSqlExt (strDropChars q 5)) with
    | .error err =>
      .error (.join (.msg (fnName ++ ": failed to load file " ++ q)) err)
    | .ok text => .ok text
  else
    .ok q

/-- A struct field as `Bind` sees it: its name, whether its type's
kind is `Func`, whether it is exported, its function type, the three
directive tags (`""` = absent, as `Tag.Get` reports), and the slot
the synthesized closure is installed into (`none` = a zero, unset
function value). -/
structure Field where
  name : String
  isFunc : Bool
  exported : Bool
  typ : FnTy
  tagExec : String
  tagQuery : String
  tagQueryOne : String
  slot : Option BoundSpec
deriving DecidableEq

/-- The bind-time context: the loader and the last-insert-id flag.
(The default handle and the context live in `DbEnv` at call time.) -/
structure BindConfig where
  qLoader : QueryLoader
  lastInsertIDSupport : Bool

/-- How `Bind` can fail: an error value returned to the caller, or a
panic raised while binding (the runner's unsupported-return-type
case). -/
inductive BindFailure
| err (e : BsaError)
| fatal (e : BsaError)
deriving DecidableEq

/-- Install one directive on a field: resolve the query text, run the
runner (whose shape switch may panic), and set the field to the
resulting closure. -/
def bindDirective (cfg : BindConfig) (f : Field) (isExec single : Bool)
    (tagText : String) : Except BindFailure Field :=
  match resolveQuery cfg.qLoader tagText f.name with
  | .error e => .error (.err e)
  | .ok script =>
    match classify f.typ isExec single with
    | none => .error (.fatal (.msg "unsupported return type"))
    | some conv => .ok { f with slot := some ⟨f.typ, conv, script⟩ }

/-- The per-field body of `Bind`'s loop: `@queryOne` is consulted
first, then `@query`, then `@exec`; a field with none of the three
returns the descriptive error naming the field. -/
def bindField (cfg : BindConfig) (f : Field) : Except BindFailure Field :=
  if f.tagQueryOne ≠ "" then
    bindDirective cfg f false true f.tagQueryOne
  else if f.tagQuery ≠ "" then
    bindDirective cfg f false false f.tagQuery
  else if f.tagExec ≠ "" then
    bindDirective cfg f true false f.tagExec
  else
    .error (.err (.msg (f.name ++ ": function is defined but does not have any queries")))

/-- `Bind`'s field loop: exported function-typed fields are bound in
declaration order, all other fields are skipped untouched; the first
failure stops the loop, leaving the already-bound fields installed
and the rest untouched. Returns the failure (if any) and the struct's
fields after the loop. -/
def bindFields (cfg : BindConfig) : List Field → Option BindFailure × List Field
| [] => (none, [])
| f :: rest =>
  if f.isFunc && f.exported then
    match bindField cfg f with
    | .error e => (some e, f :: rest)
    | .ok f' => ((bindFields cfg rest).1, f' :: (bindFields cfg rest).2)
  else
    ((bindFields cfg rest).1, f :: (bindFields cfg rest).2)

/-- The target of `Bind` after the reflection prologue: either not a
pointer, a pointer to a non-struct (each with the kind found), or a
pointer to a struct with its fields. -/
inductive Target
| notPointer (kind : String)
| pointerToNonStruct (kind : String)
| pointerToStruct (fields : List Field)

/-- `Bind`: reject non-pointer and pointer-to-non-struct targets,
then run the field loop in place. Returns the failure (if any) and
the target's state afterwards. -/
def Bind (cfg : BindConfig) (dst : Target) : Option BindFailure × Target :=
  match dst with
  | .notPointer _ => (some (.err (.msg "must be a pointer")), dst)
  | .pointerToNonStruct k =>
    (some (.err (.msg ("must be a pointer to a struct. found: " ++ k))), dst)
  | .pointerToStruct fields =>
    ((bindFields cfg fields).1, .pointerToStruct (bindFields cfg fields).2)

/-! ## Concrete instances used by witnesses and counterexamples -/

/-- A bind configuration whose loader is never consulted by literal
(non-`file:`) directives. -/
def cfg0 : BindConfig :=
  ⟨fun _ => .error (.msg "loader not configured"), true⟩

/-- A driver in which every statement succeeds with id 7 and 3
affected rows and every query returns zero rows. -/
def okEnv : DbEnv where
  execCtx := fun _ _ _ => .ok ⟨.ok 7, .ok 3⟩
  queryCtx := fun _ _ _ => .ok []

/-- A driver of a database without last-insert-id support: asking for
the id errors, 3 rows affected. -/
def okEnvNoId : DbEnv where
  execCtx := fun _ _ _ => .ok ⟨.error (.msg "LastInsertId is not supported"), .ok 3⟩
  queryCtx := fun _ _ _ => .ok []

/-- A driver whose queries all match zero rows. -/
def zeroRowsEnv : DbEnv := okEnv

/-- A driver seen through a canceled context: every operation aborts
with the cancellation error. -/
def canceledEnv : DbEnv where
  execCtx := fun _ _ _ => .error .canceled
  queryCtx := fun _ _ _ => .error .canceled

/-- An exported `func(...) (int64, int64, error)` field with a
literal `@exec` directive. -/
def execField : Field :=
  { name := "AddUser", isFunc := true, exported := true
    typ := ⟨[.int64T, .int64T, .errorT]⟩
    tagExec := "insert into users(name, age) values ($1, $2)"
    tagQuery := "", tagQueryOne := "", slot := none }

/-- `execField` after `Bind` installed its closure. -/
def boundExecField : Field :=
  { execField with slot := some ⟨execField.typ, .exec .idAffErr, execField.tagExec⟩ }

/-- An exported function field carrying none of the three
directives. -/
def taglessField : Field :=
  { name := "Broken", isFunc := true, exported := true
    typ := ⟨[.errorT]⟩
    tagExec := "", tagQuery := "", tagQueryOne := "", slot := none }

/-- An exported function field carrying BOTH `@exec` and `@queryOne`
directives. -/
def multiTagField : Field :=
  { name := "Multi", isFunc := true, exported := true
    typ := ⟨[.ptrT .structT, .errorT]⟩
    tagExec := "delete from users"
    tagQuery := "", tagQueryOne := "select * from users where id = $1"
    slot := none }

/-- An exported `func(...) int64` field with an `@exec` directive:
one return value that is not `error`, a shape outside the enumerated
conventions. -/
def intRetExecField : Field :=
  { name := "BadShape", isFunc := true, exported := true
    typ := ⟨[.int64T]⟩
    tagExec := "delete from users"
    tagQuery := "", tagQueryOne := "", slot := none }

/-- An exported `func(...) (int64, int64, int64, error)` field with
an `@exec` directive: four return values, an unsupported count. -/
def fourOutField : Field :=
  { name := "FourOuts", isFunc := true, exported := true
    typ := ⟨[.int64T, .int64T, .int64T, .errorT]⟩
    tagExec := "delete from users"
    tagQuery := "", tagQueryOne := "", slot := none }

/-- A plain exported data field (not function-typed). -/
def dataField : Field :=
  { name := "Conn", isFunc := false, exported := true
    typ := ⟨[]⟩
    tagExec := "", tagQuery := "", tagQueryOne := "", slot := none }

/-- An unexported function-typed field. -/
def unexportedFnField : Field :=
  { name := "helper", isFunc := true, exported := false
    typ := ⟨[.errorT]⟩
    tagExec := "", tagQuery := "", tagQueryOne := "", slot := none }

/-- A loader that fails every lookup. -/
def failLoader : QueryLoader := fun _ => .error (.msg "open get_user.sql: file does not exist")

/-- An exported `func(...) (*User, error)` field with a literal
`@queryOne` directive (pointer result type). -/
def queryOnePtrField : Field :=
  { name := "SelectUser", isFunc := true, exported := true
    typ := ⟨[.ptrT .structT, .errorT]⟩
    tagExec := "", tagQuery := ""
    tagQueryOne := "select * from users where id = $1"
    slot := none }

/-- An exported `func(...) (User, error)` field with a literal
`@queryOne` directive (by-value result type). -/
def queryOneValField : Field :=
  { name := "SelectUserByValue", isFunc := true, exported := true
    typ := ⟨[.structT, .errorT]⟩
    tagExec := "", tagQuery := ""
    tagQueryOne := "select * from users where id = $1"
    slot := none }

/-- The binding `Bind` installs for `queryOnePtrField`. -/
def boundQueryOnePtrSpec : BoundSpec :=
  ⟨queryOnePtrField.typ, .query true .valErr, queryOnePtrField.tagQueryOne⟩

/-- The binding `Bind` installs for `queryOneValField`. -/
def boundQueryOneValSpec : BoundSpec :=
  ⟨queryOneValField.typ, .query true .valErr, queryOneValField.tagQueryOne⟩

/-! ## Theorems -/

/-- Helper: a successful `bindField` always installs a closure into
the field's slot. -/
theorem bindField_slot_isSome {cfg : BindConfig} {f f' : Field}
    (h : bindField cfg f = .ok f') : f'.slot.isSome = true := by
  unfold bindField bindDirective at h
  split at h
  · split at h
    · exact absurd h (by simp)
    · split at h
      · exact absurd h (by simp)
      · simp only [Except.ok.injEq] at h
        subst h
        rfl
  · split at h
    · split at h
      · exact absurd h (by simp)
      · split at h
        · exact absurd h (by simp)
        · simp only [Except.ok.injEq] at h
          subst h
          rfl
    · split at h
      · split at h
        · exact absurd h (by simp)
        · split at h
          · exact absurd h (by simp)
          · simp only [Except.ok.injEq] at h
            subst h
            rfl
      · exact absurd h (by simp)

/-- C1 counterexample: a field bearing BOTH an `@exec` and an
`@queryOne` directive does not fail binding — `Bind` succeeds on a
struct containing it, contradicting the claim that more than one
directive always fails with a configuration error naming the field. -/
theorem C1_counterexample :
    (Bind cfg0 (.pointerToStruct [multiTagField])).1 = none := by rfl

/-- C2 counterexample: on a struct whose first field carries a valid
`@exec` directive and whose second field carries no directive, `Bind`
returns an error, yet the first field is left bound — and its
installed closure is usable (a call through it succeeds against a
working driver) — contradicting the claim that a failing `Bind`
leaves no usable partially bound field installed. -/
theorem C2_counterexample :
    Bind cfg0 (.pointerToStruct [execField, taglessField]) =
      (some (.err (.msg "Broken: function is defined but does not have any queries")),
       .pointerToStruct [boundExecField, taglessField]) ∧
    callBound okEnv true ⟨execField.typ, .exec .idAffErr, execField.tagExec⟩ [] =
      .ok [.i64 7, .i64 3, .errV none] :=
  ⟨rfl, rfl⟩

/-- C3: both `QueryOne` fields (pointer result and by-value result)
bind successfully, and against zero matching rows the pointer-result
binding returns a nil reference and a nil error as the claim states;
but the by-value binding returns a POINTER to the zero-valued struct
(the source returns `dstRefValue.Interface()` without `.Elem()`),
which is not assignable to the declared by-value return type, so the
call panics inside `reflect.MakeFunc` instead of returning a
zero-valued struct and a nil error. -/
theorem C3_queryone_zero_rows_bug :
    (Bind cfg0 (.pointerToStruct [queryOnePtrField, queryOneValField])).1 = none ∧
    callBound zeroRowsEnv true boundQueryOnePtrSpec [] =
      .ok [.ptrStruct none, .errV none] ∧
    callBound zeroRowsEnv true boundQueryOneValSpec [] =
      .error (.typeMismatch (.ptrT .structT) .structT) :=
  ⟨rfl, rfl, rfl⟩

/-- C4 counterexample: `func(...) int64` with `@exec` is not one of
the enumerated return-shape conventions (a single return value must
be `error`), yet `Bind` accepts it — only the COUNT of return values
is checked at bind time — and the shape mismatch is first detected at
call time, as a panic in `reflect.MakeFunc`'s result conversion. -/
theorem C4_counterexample :
    Bind cfg0 (.pointerToStruct [intRetExecField]) =
      (none, .pointerToStruct [{ intRetExecField with
        slot := some ⟨intRetExecField.typ, .exec .errOnly, intRetExecField.tagExec⟩ }]) ∧
    callBound okEnv true ⟨intRetExecField.typ, .exec .errOnly, intRetExecField.tagExec⟩ [] =
      .error (.typeMismatch .errorT .int64T) :=
  ⟨rfl, rfl⟩

/-- C7 counterexample: under a canceled context (every driver
operation returns the cancellation error), a call through a binding
with the no-return `Exec` convention panics with that error instead
of surfacing it as an ordinary execution error — contradicting the
claim that cancellation is never surfaced as a panic for all six
conventions. -/
theorem C7_counterexample :
    callBound canceledEnv true ⟨⟨[]⟩, .exec .noOut, "delete from users"⟩ [] =
      .error (.panicked .canceled) :=
  rfl

/-- Helper: when the first argument does not satisfy `DBResource`
(or there are no arguments), routing chooses the default handle and
forwards every argument as a parameter. -/
theorem routeArgs_not_resource (args : List RVal)
    (h : ∀ r, args.head? ≠ some (.dbres r)) : routeArgs args = ⟨none, args⟩ := by
  cases args with
  | nil => rfl
  | cons a rest =>
    cases a
    case dbres id =>
      exact absurd (rfl : (RVal.dbres id :: rest).head? = some (.dbres id)) (h id)
    all_goals rfl

/-- C5: a first argument satisfying `DBResource` becomes the executor
and is not forwarded as a query parameter (only the remaining
arguments are); a first argument that does not satisfy `DBResource`
(or an empty argument list) leaves execution on the default handle
with every argument forwarded positionally — for both the `exec` and
the `Query` paths of the synthesized closures. -/
theorem C5_resource_routing :
    (∀ (r : Nat) (rest : List RVal), routeArgs (.dbres r :: rest) = ⟨some r, rest⟩) ∧
    (∀ args : List RVal, (∀ r, args.head? ≠ some (.dbres r)) →
       routeArgs args = ⟨none, args⟩) ∧
    (∀ env sup q (r : Nat) (rest : List RVal),
       execHelper env sup q (.dbres r :: rest) = execDispatch env sup q (some r) rest) ∧
    (∀ env sup q (args : List RVal), (∀ r, args.head? ≠ some (.dbres r)) →
       execHelper env sup q args = execDispatch env sup q none args) ∧
    (∀ env q one oty (r : Nat) (rest : List RVal),
       QueryHelper env q one oty (.dbres r :: rest) =
         queryDispatch env q one oty (some r) rest) ∧
    (∀ env q one oty (args : List RVal), (∀ r, args.head? ≠ some (.dbres r)) →
       QueryHelper env q one oty args = queryDispatch env q one oty none args) := by
  refine ⟨fun r rest => rfl, routeArgs_not_resource, fun env sup q r rest => rfl,
    ?_, fun env q one oty r rest => rfl, ?_⟩
  · intro env sup q args h
    simp only [execHelper, routeArgs_not_resource args h]
  · intro env q one oty args h
    simp only [QueryHelper, routeArgs_not_resource args h]

/-- C5 witness: a non-resource first argument is routed to the
default handle and kept as the first query parameter. -/
theorem C5_witness : routeArgs [.i64 5] = ⟨none, [.i64 5]⟩ :=
  C5_resource_routing.2.1 [.i64 5] (by intro r h; simp at h)

/-- C6: when the statement executes without a database error and the
affected-row count is available, the `exec` helper always reports the
affected count; with `lastInsertIDSupport` disabled it reports 0 for
the identifier without error — whatever `LastInsertId` would have
done — and with support enabled it reports the identifier the driver
produced. -/
theorem C6_exec_id_and_affected (env : DbEnv) (q : String) (args : List RVal)
    (res : ExecResult) (aff : Int)
    (hdb : env.execCtx (routeArgs args).executor q (routeArgs args).params = .ok res)
    (haff : res.rowsAffected = .ok aff) :
    execHelper env false q args = .ok (0, aff) ∧
    (∀ id : Int, res.lastInsertId = .ok id →
       execHelper env true q args = .ok (id, aff)) := by
  constructor
  · simp [execHelper, execDispatch, execFinish, hdb, haff]
  · intro id hid
    simp [execHelper, execDispatch, execFinish, hdb, haff, hid]

/-- C6 witness: against a driver without last-insert-id support
(asking for the id would error), an `Exec` call with support disabled
returns identifier 0 and the affected count, with no error. -/
theorem C6_witness :
    execHelper okEnvNoId false "insert into users(name, age) values ($1, $2)" [] =
      .ok (0, 3) :=
  (C6_exec_id_and_affected okEnvNoId "insert into users(name, age) values ($1, $2)" []
    ⟨.error (.msg "LastInsertId is not supported"), .ok 3⟩ 3 rfl rfl).1

/-- C7 (amended): under a canceled context, cancellation surfaces as
an ordinary error value in the three error-carrying conventions
(`error`; `(int64, int64, error)`; `(result, error)`), but in the
three no-error conventions (no return values; `(int64, int64)`;
`result` alone) it escalates to a panic of the calling goroutine,
like every other execution error. -/
theorem C7_cancellation_by_convention (q : String) (args : List RVal) :
    (callBound canceledEnv true ⟨⟨[.errorT]⟩, .exec .errOnly, q⟩ args =
       .ok [.errV (some .canceled)]) ∧
    (callBound canceledEnv true ⟨⟨[.int64T, .int64T, .errorT]⟩, .exec .idAffErr, q⟩ args =
       .ok [.i64 0, .i64 0, .errV (some .canceled)]) ∧
    (∀ single : Bool,
       callBound canceledEnv true ⟨⟨[.ptrT .structT, .errorT]⟩, .query single .valErr, q⟩ args =
         .ok [.ptrStruct none, .errV (some .canceled)]) ∧
    (callBound canceledEnv true ⟨⟨[]⟩, .exec .noOut, q⟩ args =
       .error (.panicked .canceled)) ∧
    (callBound canceledEnv true ⟨⟨[.int64T, .int64T]⟩, .exec .idAff, q⟩ args =
       .error (.panicked .canceled)) ∧
    (∀ single : Bool,
       callBound canceledEnv true ⟨⟨[.ptrT .structT]⟩, .query single .valOnly, q⟩ args =
         .error (.panicked .canceled)) :=
  ⟨rfl, rfl, fun _ => rfl, rfl, rfl, fun _ => rfl⟩

/-- C9: a `QueryMany` binding against zero matching rows returns an
empty, non-nil slice — under both query conventions — and that empty
slice is distinct from the absent (nil) slice that is the slice
type's zero value. -/
theorem C9_querymany_zero_rows (env : DbEnv) (q : String) (args : List RVal)
    (h : env.queryCtx (routeArgs args).executor q (routeArgs args).params = .ok []) :
    callBound env true ⟨⟨[.sliceT .structT, .errorT]⟩, .query false .valErr, q⟩ args =
      .ok [.sliceStruct (some []), .errV none] ∧
    callBound env true ⟨⟨[.sliceT .structT]⟩, .query false .valOnly, q⟩ args =
      .ok [.sliceStruct (some [])] ∧
    RVal.sliceStruct (some []) ≠ (GoTy.sliceT .structT).zeroVal := by
  refine ⟨?_, ?_, by simp [GoTy.zeroVal]⟩
  · simp [callBound, rawResults, QueryHelper, queryDispatch, h, scanFinish, scanAll,
      convertResults, RVal.ty, FnTy.out0, getErrorValue]
  · simp [callBound, rawResults, QueryHelper, queryDispatch, h, scanFinish, scanAll,
      convertResults, RVal.ty, FnTy.out0, getErrorValue]

/-- C9 witness: the zero-rows driver yields the empty, non-nil slice
and a nil error. -/
theorem C9_witness :
    callBound zeroRowsEnv true
      ⟨⟨[.sliceT .structT, .errorT]⟩, .query false .valErr, "select * from users"⟩ [] =
      .ok [.sliceStruct (some []), .errV none] :=
  (C9_querymany_zero_rows zeroRowsEnv "select * from users" [] rfl).1

/-- Helper: `resolveQuery` fails only with a joined error (it never
produces a bare message). -/
theorem resolveQuery_error_join (L : QueryLoader) (q n : String) (e : BsaError)
    (h : resolveQuery L q n = .error e) : ∃ a b, e = .join a b := by
  unfold resolveQuery at h
  split at h
  · split at h
    · simp only [Except.error.injEq] at h
      exact ⟨_, _, h.symm⟩
    · exact absurd h (by simp)
  · exact absurd h (by simp)

/-- Helper: installing a directive never produces the no-directive
configuration error — its failures are a joined resolver error or the
fatal unsupported-return-type panic. -/
theorem bindDirective_ne_noqueries (cfg : BindConfig) (f : Field)
    (isExec single : Bool) (t : String) :
    bindDirective cfg f isExec single t ≠
      .error (.err (.msg (f.name ++ ": function is defined but does not have any queries"))) := by
  intro h
  unfold bindDirective at h
  split at h
  · rename_i e heq
    obtain ⟨a, b, rfl⟩ := resolveQuery_error_join cfg.qLoader t f.name e heq
    simp at h
  · split at h
    · simp at h
    · simp at h

/-- C1 (amended): for an exported function-typed field, the binding
loop produces the no-directive configuration error naming the field
exactly when all three directives are absent; the presence of more
than one directive never itself causes a failure — the
highest-priority directive present is the one bound: `@queryOne`
beats both others (whatever they hold), and `@query` beats
`@exec`. -/
theorem C1_directive_presence (cfg : BindConfig) (f : Field)
    (hf : f.isFunc = true) (he : f.exported = true) :
    (bindField cfg f =
        .error (.err (.msg (f.name ++ ": function is defined but does not have any queries"))) ↔
      f.tagExec = "" ∧ f.tagQuery = "" ∧ f.tagQueryOne = "") ∧
    (f.tagExec = "" → f.tagQuery = "" → f.tagQueryOne = "" →
       Bind cfg (.pointerToStruct [f]) =
         (some (.err (.msg (f.name ++ ": function is defined but does not have any queries"))),
          .pointerToStruct [f])) ∧
    (f.tagQueryOne ≠ "" → strStarts f.tagQueryOne "file:" = false →
       ∀ conv : Conv, classify f.typ false true = some conv →
         Bind cfg (.pointerToStruct [f]) =
           (none, .pointerToStruct [{ f with slot := some ⟨f.typ, conv, f.tagQueryOne⟩ }])) ∧
    (f.tagQueryOne = "" → f.tagQuery ≠ "" → strStarts f.tagQuery "file:" = false →
       ∀ conv : Conv, classify f.typ false false = some conv →
         Bind cfg (.pointerToStruct [f]) =
           (none, .pointerToStruct [{ f with slot := some ⟨f.typ, conv, f.tagQuery⟩ }])) := by
  refine ⟨⟨?_, ?_⟩, ?_, ?_, ?_⟩
  · intro h
    by_cases h1 : f.tagQueryOne = ""
    · by_cases h2 : f.tagQuery = ""
      · by_cases h3 : f.tagExec = ""
        · exact ⟨h3, h2, h1⟩
        · unfold bindField at h
          rw [if_neg (by simp [h1]), if_neg (by simp [h2]), if_pos h3] at h
          exact absurd h (bindDirective_ne_noqueries cfg f true false f.tagExec)
      · unfold bindField at h
        rw [if_neg (by simp [h1]), if_pos h2] at h
        exact absurd h (bindDirective_ne_noqueries cfg f false false f.tagQuery)
    · unfold bindField at h
      rw [if_pos h1] at h
      exact absurd h (bindDirective_ne_noqueries cfg f false true f.tagQueryOne)
  · rintro ⟨h3, h2, h1⟩
    simp [bindField, h1, h2, h3]
  · intro h1 h2 h3
    simp [Bind, bindFields, hf, he, bindField, h1, h2, h3]
  · intro hq hpre conv hconv
    simp [Bind, bindFields, hf, he, bindField, hq, bindDirective, resolveQuery, hpre, hconv]
  · intro h1 hq hpre conv hconv
    simp [Bind, bindFields, hf, he, bindField, h1, hq, bindDirective, resolveQuery,
      hpre, hconv]

/-- C1 witness: the field with no directive fails binding with the
error naming it. -/
theorem C1_witness :
    Bind cfg0 (.pointerToStruct [taglessField]) =
      (some (.err (.msg (taglessField.name ++ ": function is defined but does not have any queries"))),
       .pointerToStruct [taglessField]) :=
  (C1_directive_presence cfg0 taglessField rfl rfl).2.1 rfl rfl rfl

/-- C2 (amended): when `Bind` succeeds, every exported function-typed
field of the result carries an installed closure; when it fails,
fields bound before the failing one remain installed — the loop does
not roll anything back. -/
theorem C2_bind_all_or_leftover (cfg : BindConfig) :
    (∀ fields fields' : List Field,
       bindFields cfg fields = (none, fields') →
       ∀ f' ∈ fields', f'.isFunc = true → f'.exported = true →
         f'.slot.isSome = true) ∧
    (∀ (f f' : Field) (rest : List Field), f.isFunc = true → f.exported = true →
       bindField cfg f = .ok f' →
       bindFields cfg (f :: rest) =
         ((bindFields cfg rest).1, f' :: (bindFields cfg rest).2)) := by
  constructor
  · intro fields
    induction fields with
    | nil =>
      intro fields' h f' hmem _ _
      simp only [bindFields, Prod.mk.injEq] at h
      rw [← h.2] at hmem
      exact absurd hmem (List.not_mem_nil f')
    | cons f rest ih =>
      intro fields' h f' hmem hf he
      simp only [bindFields] at h
      by_cases hg : (f.isFunc && f.exported) = true
      · rw [if_pos hg] at h
        cases hb : bindField cfg f with
        | error e =>
          rw [hb] at h
          simp at h
        | ok f1 =>
          rw [hb] at h
          simp only [Prod.mk.injEq] at h
          obtain ⟨h1, h2⟩ := h
          rw [← h2] at hmem
          rcases List.mem_cons.mp hmem with rfl | hmem2
          · exact bindField_slot_isSome hb
          · exact ih (bindFields cfg rest).2 (by rw [← h1]) f' hmem2 hf he
      · rw [if_neg hg] at h
        simp only [Prod.mk.injEq] at h
        obtain ⟨h1, h2⟩ := h
        rw [← h2] at hmem
        rcases List.mem_cons.mp hmem with rfl | hmem2
        · rw [hf, he] at hg
          simp at hg
        · exact ih (bindFields cfg rest).2 (by rw [← h1]) f' hmem2 hf he
  · intro f f' rest hf he hb
    simp [bindFields, hf, he, hb]

/-- C2 witness: the successfully bound struct's exported function
field carries an installed closure. -/
theorem C2_witness : boundExecField.slot.isSome = true :=
  (C2_bind_all_or_leftover cfg0).1 [execField] [boundExecField] rfl boundExecField
    (by simp) rfl rfl

/-- Helper: the runner's query-side switch rejects any return-value
count other than 1 or 2, for single- and multi-row selections
alike. -/
theorem classify_query_none (typ : FnTy) (single : Bool)
    (h : typ.outs = [] ∨ 3 ≤ typ.outs.length) :
    classify typ false single = none := by
  rcases h with hnil | hlen
  · simp [classify, hnil]
  · rcases hout : typ.outs with _ | ⟨a, _ | ⟨b, _ | ⟨c, rest⟩⟩⟩
    · rw [hout] at hlen
      simp at hlen
    · rw [hout] at hlen
      simp at hlen
    · rw [hout] at hlen
      simp at hlen
    · simp [classify, hout]

/-- C4 (amended): bind-time validation looks only at the NUMBER of
declared return values: an `@exec` field with four or more return
values, and a `@queryOne`/`@query` field with zero or three-or-more
return values, are rejected at bind time by a fatal panic; an `@exec`
field with exactly one return value binds successfully whatever that
value's type is — so a supported count with a wrong type (here: a
single non-`error` return) is first detected at call time, as a
`reflect.MakeFunc` panic. -/
theorem C4_count_only_checked (cfg : BindConfig) :
    (∀ f : Field, f.isFunc = true → f.exported = true →
       strStarts f.tagExec "file:" = false → f.tagExec ≠ "" →
       f.tagQuery = "" → f.tagQueryOne = "" → 4 ≤ f.typ.outs.length →
       bindFields cfg [f] = (some (.fatal (.msg "unsupported return type")), [f])) ∧
    (∀ (typ : FnTy) (single : Bool), (typ.outs = [] ∨ 3 ≤ typ.outs.length) →
       classify typ false single = none) ∧
    (∀ f : Field, f.isFunc = true → f.exported = true →
       strStarts f.tagQueryOne "file:" = false → f.tagQueryOne ≠ "" →
       (f.typ.outs = [] ∨ 3 ≤ f.typ.outs.length) →
       bindFields cfg [f] = (some (.fatal (.msg "unsupported return type")), [f])) ∧
    (∀ (f : Field) (t : GoTy), f.isFunc = true → f.exported = true →
       strStarts f.tagExec "file:" = false → f.tagExec ≠ "" →
       f.tagQuery = "" → f.tagQueryOne = "" → f.typ.outs = [t] →
       bindFields cfg [f] =
         (none, [{ f with slot := some ⟨f.typ, .exec .errOnly, f.tagExec⟩ }])) ∧
    (∀ (env : DbEnv) (sup : Bool) (q : String) (args : List RVal) (t : GoTy)
       (id aff : Int), t ≠ .errorT →
       env.execCtx (routeArgs args).executor q (routeArgs args).params =
         .ok ⟨.ok id, .ok aff⟩ →
       callBound env sup ⟨⟨[t]⟩, .exec .errOnly, q⟩ args =
         .error (.typeMismatch .errorT t)) := by
  refine ⟨?_, classify_query_none, ?_, ?_, ?_⟩
  · intro f hf he hpre hx hq h1 hlen
    have hcl : classify f.typ true false = none := by
      rcases hout : f.typ.outs with _ | ⟨a, _ | ⟨b, _ | ⟨c, _ | ⟨d, rest⟩⟩⟩⟩
      · rw [hout] at hlen
        simp at hlen
      · rw [hout] at hlen
        simp at hlen
      · rw [hout] at hlen
        simp at hlen
      · rw [hout] at hlen
        simp at hlen
      · simp [classify, hout]
    simp [bindFields, hf, he, bindField, h1, hq, hx, bindDirective, resolveQuery,
      hpre, hcl]
  · intro f hf he hpre hq hlen
    simp [bindFields, hf, he, bindField, hq, bindDirective, resolveQuery, hpre,
      classify_query_none f.typ true hlen]
  · intro f t hf he hpre hx hq h1 hout
    have hcl : classify f.typ true false = some (.exec .errOnly) := by
      simp [classify, hout]
    simp [bindFields, hf, he, bindField, h1, hq, hx, bindDirective, resolveQuery,
      hpre, hcl]
  · intro env sup q args t id aff ht hdb
    cases sup <;>
      simp [callBound, rawResults, execHelper, execDispatch, execFinish, hdb,
        convertResults, RVal.ty, getErrorValue, Ne.symm ht]

/-- C4 witness: the four-return-value `@exec` field is rejected at
bind time with the fatal unsupported-return-type panic. -/
theorem C4_witness :
    bindFields cfg0 [fourOutField] =
      (some (.fatal (.msg "unsupported return type")), [fourOutField]) :=
  (C4_count_only_checked cfg0).1 fourOutField rfl rfl rfl (by decide) rfl rfl
    (by decide)

/-- Helper: a list is a prefix of itself followed by anything. -/
theorem listIsPre_append_self (l t : List Char) : listIsPre l (l ++ t) = true := by
  induction l with
  | nil => rfl
  | cons a l ih => simp [listIsPre, ih]

/-- Helper: a list occurs in itself followed by anything. -/
theorem listContainsSub_append_self (l t : List Char) :
    listContainsSub l (l ++ t) = true := by
  cases l with
  | nil =>
    cases t with
    | nil => rfl
    | cons a t => simp [listContainsSub, listIsPre]
  | cons a l =>
    simp only [List.cons_append, listContainsSub, Bool.or_eq_true]
    exact Or.inl (listIsPre_append_self (a :: l) t)

/-- Helper: string append is associative. -/
theorem strAppend_assoc (a b c : String) : (a ++ b) ++ c = a ++ (b ++ c) := by
  cases a with
  | mk ad =>
    cases b with
    | mk bd =>
      cases c with
      | mk cd => exact congrArg String.mk (List.append_assoc ad bd cd)

/-- Helper: a string occurs in itself followed by anything. -/
theorem strContainsSub_append_left (n r : String) :
    strContainsSub (n ++ r) n = true := by
  cases n with
  | mk nd =>
    cases r with
    | mk rd => exact listContainsSub_append_self nd rd

/-- C8: directive text carrying the `file:` prefix is stripped, given
the `.sql` extension when absent, and looked up through the loader's
`Get`; a loader failure makes the binding fail with an error that
joins a message naming the field (and the original text) with the
underlying loader error; text without the prefix is used verbatim. -/
theorem C8_file_reference_resolution (L : QueryLoader) (q n : String) :
    (∀ e : BsaError, strStarts q "file:" = true →
       L (withSqlExt (strDropChars q 5)) = .error e →
       resolveQuery L q n =
         .error (.join (.msg (n ++ ": failed to load file " ++ q)) e) ∧
       (BsaError.join (.msg (n ++ ": failed to load file " ++ q)) e).mentions n = true) ∧
    (∀ t : String, strStarts q "file:" = true →
       L (withSqlExt (strDropChars q 5)) = .ok t →
       resolveQuery L q n = .ok t) ∧
    (strStarts q "file:" = false → resolveQuery L q n = .ok q) ∧
    (∀ (f : Field) (e : BsaError), f.isFunc = true → f.exported = true →
       f.tagQueryOne = q → strStarts q "file:" = true →
       L (withSqlExt (strDropChars q 5)) = .error e →
       bindFields ⟨L, true⟩ [f] =
         (some (.err (.join (.msg (f.name ++ ": failed to load file " ++ q)) e)),
          [f])) := by
  refine ⟨?_, ?_, ?_, ?_⟩
  · intro e hpre hload
    constructor
    · simp [resolveQuery, hpre, hload]
    · have hsub : strContainsSub (n ++ ": failed to load file " ++ q) n = true := by
        rw [strAppend_assoc]
        exact strContainsSub_append_left n _
      simp [BsaError.mentions, hsub]
  · intro t hpre hload
    simp [resolveQuery, hpre, hload]
  · intro hpre
    simp [resolveQuery, hpre]
  · intro f e hf he htag hpre hload
    have hqne : q ≠ "" := by
      intro h0
      rw [h0] at hpre
      exact absurd hpre (by decide)
    simp [bindFields, hf, he, bindField, hqne, bindDirective, resolveQuery, htag,
      hpre, hload]

/-- C8 witness: resolving `file:get_user` against a failing loader
yields the joined error naming the field and carrying the loader's
error, and that error mentions the field name. -/
theorem C8_witness :
    resolveQuery failLoader "file:get_user" "SelectUser" =
      .error (.join (.msg ("SelectUser" ++ ": failed to load file " ++ "file:get_user"))
        (.msg "open get_user.sql: file does not exist")) ∧
    (BsaError.join (.msg ("SelectUser" ++ ": failed to load file " ++ "file:get_user"))
      (.msg "open get_user.sql: file does not exist")).mentions "SelectUser" = true :=
  (C8_file_reference_resolution failLoader "file:get_user" "SelectUser").1
    (.msg "open get_user.sql: file does not exist") (by decide) rfl

/-- C10: fields that are not function-typed or not exported are
skipped by the binding loop — they pass through unchanged and need no
directive — and a struct consisting only of such fields binds
successfully with no field modified. -/
theorem C10_non_function_fields_untouched (cfg : BindConfig) :
    (∀ (f : Field) (rest : List Field), (f.isFunc = false ∨ f.exported = false) →
       bindFields cfg (f :: rest) =
         ((bindFields cfg rest).1, f :: (bindFields cfg rest).2)) ∧
    (∀ fields : List Field, (∀ f ∈ fields, f.isFunc = false ∨ f.exported = false) →
       Bind cfg (.pointerToStruct fields) = (none, .pointerToStruct fields)) := by
  have step : ∀ (f : Field) (rest : List Field),
      (f.isFunc = false ∨ f.exported = false) →
      bindFields cfg (f :: rest) =
        ((bindFields cfg rest).1, f :: (bindFields cfg rest).2) := by
    intro f rest h
    have hg : (f.isFunc && f.exported) = false := by
      rcases h with h | h <;> simp [h]
    simp [bindFields, hg]
  refine ⟨step, ?_⟩
  have hb : ∀ fields : List Field,
      (∀ f ∈ fields, f.isFunc = false ∨ f.exported = false) →
      bindFields cfg fields = (none, fields) := by
    intro fields
    induction fields with
    | nil => intro _; rfl
    | cons f rest ih =>
      intro hall
      rw [step f rest (hall f (by simp)), ih (fun g hg => hall g (by simp [hg]))]
  intro fields hall
  simp [Bind, hb fields hall]

/-- C10 witness: a struct holding only a data field and an unexported
function field binds successfully with both fields unchanged. -/
theorem C10_witness :
    Bind cfg0 (.pointerToStruct [dataField, unexportedFnField]) =
      (none, .pointerToStruct [dataField, unexportedFnField]) :=
  (C10_non_function_fields_untouched cfg0).2 [dataField, unexportedFnField]
    (by
      intro f hf
      simp only [List.mem_cons, List.not_mem_nil, or_false] at hf
      rcases hf with rfl | rfl
      · exact Or.inl rfl
      · exact Or.inr rfl)

end BSA
